import Mathlib

/-!
Formal model of the RnSApp calculation pipeline.

The definitions below are a shallow embedding of the computational core of
the application: the pure numeric helpers of src/domain/utils.py and the
per-row / per-run logic of CalculationService in
src/application/calculations.py.  Python and numpy floating point
arithmetic is modelled over exact numbers: the grid cell contents and the
decidable filtering logic over the rationals, the fit and sqrt formulas
over the reals.  Where the IEEE semantics of the source differs from the
exact model (division by zero yields NaN or Inf with a numpy
RuntimeWarning instead of raising an exception), the relevant definition
carries a comment explaining the modelling choice, and the theorems about
those code paths only assert which control-flow branch is taken, never
the junk value itself.
-/

namespace RnSApp

/-- Content of one grid cell as seen by the calculation service.
TableMixin.get_column_value parses the cell text with float(...) and
returns None (or the empty string in get_column_values) when the cell is
blank or unparsable, so a value reaching the numeric pipeline is either a
float or a blank; blank covers both None and the empty string, which are
equally falsy in the truthiness tests of the source. -/
inductive Value
  | blank
  | num (q : ℚ)
deriving DecidableEq

/-- Truthiness of a cell value under Python bool(): None and the empty
string are falsy (both collapsed into blank), a float is falsy exactly
when it equals 0.0. -/
def truthy : Value → Bool
  | Value.blank => false
  | Value.num q => decide (q ≠ 0)

/-- Numeric content of a cell; the blank case is never reached after the
truthiness filter and is mapped to 0. -/
def toQ : Value → ℚ
  | Value.blank => 0
  | Value.num q => q

/-- Exceptions raised by drop_nans and by tuple unpacking of its result:
domain.errors.ListsNotSameLength, and the Python ValueError raised when a
sequence does not unpack into the expected number of variables. -/
inductive PyErr
  | listsNotSameLength
  | valueError
deriving DecidableEq

/-- Detection of a blank cell, the empty string produced by
get_column_values for an unparsable cell. -/
def isBlank : Value → Bool
  | Value.blank => true
  | Value.num _ => false

/-- Predicate telling whether a list contains a blank.  The dtype of
np.array([arr1, arr2]) depends on it: with only floats numpy picks a
float dtype, while a single (blank) string anywhere coerces the whole
two-row array to a string dtype. -/
def hasBlank (l : List Value) : Bool := l.any isBlank

/-- Truthiness of one cell of np.array([arr1, arr2]).T under the dtype
numpy chose for the whole array.  With a string dtype (stringMode, at
least one blank somewhere in either list) every float was coerced to its
decimal representation, a non-empty and hence truthy string — in
particular 0.0 became the truthy string with the characters 0.0 — so
only blanks are falsy.  With the float dtype (no blank anywhere) a value
is falsy exactly when it equals 0.0. -/
def keep (stringMode : Bool) : Value → Bool
  | Value.blank => false
  | Value.num q => stringMode || decide (q ≠ 0)

/-- Model of domain.utils.drop_nans.  The source builds
np.array([arr1, arr2]).T, keeps the rows where all(pair) holds, and
returns np.array(kept, dtype=float).T.  The per-value truthiness test
all(pair) runs on the cells after the dtype coercion of
np.array([arr1, arr2]), hence the keep predicate parametrized by
whether a blank occurs in either list.  For k >= 1 surviving pairs the
result has shape (2, k), that is exactly two rows; for k = 0 the result
is np.array([]) of shape (0,), that is zero rows — not a pair of empty
rows.  The result is therefore modelled as the list of rows.  The
dtype=float conversion cannot fail on the modelled cell domain because
every surviving value is a float or the decimal string numpy made of
one. -/
def drop_nans (arr1 arr2 : List Value) : Except PyErr (List (List ℚ)) :=
  if arr1.length ≠ arr2.length then Except.error PyErr.listsNotSameLength
  else if ((arr1.zip arr2).filter fun p =>
      keep (hasBlank arr1 || hasBlank arr2) p.1 &&
      keep (hasBlank arr1 || hasBlank arr2) p.2) = [] then Except.ok []
  else Except.ok
    [((arr1.zip arr2).filter fun p =>
        keep (hasBlank arr1 || hasBlank arr2) p.1 &&
        keep (hasBlank arr1 || hasBlank arr2) p.2).map fun p => toQ p.1,
     ((arr1.zip arr2).filter fun p =>
        keep (hasBlank arr1 || hasBlank arr2) p.1 &&
        keep (hasBlank arr1 || hasBlank arr2) p.2).map fun p => toQ p.2]

/-- Model of the Python tuple unpacking a, b = rows performed by the
caller of drop_nans inside its try block: it succeeds exactly when there
are exactly two rows, and raises ValueError otherwise. -/
def unpack2 (rows : List (List ℚ)) : Except PyErr (List ℚ × List ℚ) :=
  match rows with
  | [xs, ys] => Except.ok (xs, ys)
  | _ => Except.error PyErr.valueError

/-- Sample mean as in the local mean helper of linear_fit:
sum(xs) / len(xs). -/
noncomputable def mean (xs : List ℝ) : ℝ := xs.sum / xs.length

/-- Sample standard deviation as in the local std helper of linear_fit:
sqrt of the sum of squared deviations divided by the Bessel normalizer
len(xs) - 1. -/
noncomputable def std (xs : List ℝ) (m : ℝ) : ℝ :=
  Real.sqrt ((xs.map fun x1 => (x1 - m) ^ 2).sum / ((xs.length : ℝ) - 1))

/-- Pearson correlation as in the local pearson_r helper of linear_fit:
the three accumulators run over zip(xs, ys). -/
noncomputable def pearson_r (xs ys : List ℝ) (m_x m_y : ℝ) : ℝ :=
  ((xs.zip ys).map fun p => (p.1 - m_x) * (p.2 - m_y)).sum /
    Real.sqrt ((((xs.zip ys).map fun p => (p.1 - m_x) ^ 2).sum) *
      (((xs.zip ys).map fun p => (p.2 - m_y) ^ 2).sum))

/-- Model of domain.utils.linear_fit: slope = r * (std_y / std_x),
intercept = m_y - slope * m_x.  The Python source raises
ZeroDivisionError when len(x) = 1 (the std normalizer is 0 and the
operands are plain floats); every theorem below uses this definition
only at lists of length at least 2, where the source performs exactly
these real-number operations. -/
noncomputable def linear_fit (x y : List ℝ) : ℝ × ℝ :=
  (pearson_r x y (mean x) (mean y) * (std y (mean y) / std x (mean x)),
   mean y - pearson_r x y (mean x) (mean y) * (std y (mean y) / std x (mean x)) * mean x)

/-- Model of domain.utils.calculate_drift: -intercept / slope. -/
noncomputable def calculate_drift (slope intercept : ℝ) : ℝ := -intercept / slope

/-- Model of domain.utils.calculate_rns: pi * 0.25 / slope squared. -/
noncomputable def calculate_rns (slope : ℝ) : ℝ := Real.pi * 0.25 / slope ^ 2

/-- Model of domain.utils.calculate_rn_sqrt: 1 / sqrt(resistance +
rn_consistent). -/
noncomputable def calculate_rn_sqrt (resistance rn_consistent : ℝ) : ℝ :=
  1 / Real.sqrt (resistance + rn_consistent)

/-- Model of domain.utils.calculate_square: (diameter - drift)^2 * pi / 4. -/
noncomputable def calculate_square (diameter drift : ℝ) : ℝ :=
  (diameter - drift) ^ 2 * Real.pi / 4

/-- Model of domain.utils.calculate_rns_per_sample:
(resistance + rn_persistent) * 0.25 * pi * (diameter - drift)^2. -/
noncomputable def calculate_rns_per_sample (resistance diameter drift rn_persistent : ℝ) : ℝ :=
  (resistance + rn_persistent) * 0.25 * Real.pi * (diameter - drift) ^ 2

/-- Model of domain.utils.calculate_rns_error_per_sample, np.abs(rns_i -
rns), over the rational cell values written back into the grid. -/
def calculate_rns_error_per_sample (rns_i rns : ℚ) : ℚ := |rns_i - rns|

/-- Outcome written by CalculationService.calculate_main_params into the
parameter table on the success path: slope, intercept, drift and rns. -/
structure MainParams where
  slope : ℝ
  intercept : ℝ
  drift : ℝ
  rns : ℝ

/-- Failure outcome of a pipeline step: the step shows a warning dialog
and returns False, aborting calculate_results. -/
inductive PipeErr
  | reportedWarning
deriving DecidableEq

/-- Model of CalculationService.calculate_main_params.  The try block
wraps the call of drop_nans together with the tuple unpacking of its
result and catches ListsNotSameLength and ValueError, turning either into
a warning dialog plus an abort (return False).  Everything after the try
block is straight-line float arithmetic and table writes: linear_fit,
calculate_drift and calculate_rns are called unconditionally and their
results are written with setItem, with no error check in between.  Under
IEEE semantics a degenerate fit makes these values NaN or Inf (numpy
division only emits a RuntimeWarning); the exact model assigns junk
values on those inputs instead, and the theorems below only use which
branch — ok versus error — is taken. -/
noncomputable def calculate_main_params (diam rn : List Value) : Except PipeErr MainParams :=
  match (drop_nans diam rn).bind unpack2 with
  | Except.error _ => Except.error PipeErr.reportedWarning
  | Except.ok (xs, ys) =>
      let p := linear_fit (xs.map fun q => (q : ℝ)) (ys.map fun q => (q : ℝ))
      Except.ok ⟨p.1, p.2, calculate_drift p.1 p.2, calculate_rns p.1⟩

/-- Model of one iteration of the loop in
CalculationService.calculate_rn05: rows whose resistance or diameter is
falsy are skipped (none, nothing is written); for every other row the
value 1 / sqrt(resistance + rn_consistent) is computed and written into
the RN_SQRT cell unconditionally — there is no check on the sign of
resistance + rn_consistent, so under IEEE semantics a NaN (negative sum)
or Inf (zero sum) is written. -/
noncomputable def calculate_rn05_row (resistance diameter : Value) (rn_consistent : ℚ) :
    Option ℝ :=
  if truthy resistance && truthy diameter then
    some (calculate_rn_sqrt (toQ resistance) rn_consistent)
  else none

/-- Arithmetic exception kind caught by the try block around the
aggregate RNS_ERROR computation. -/
inductive ArithErr
  | zeroDivisionError
deriving DecidableEq

/-- Model of the division np.sum(...) / len(rns_list) in
CalculationService.calculate_error_params.  The left operand is a numpy
float (np.sum returns np.float64 even on an empty array), so dividing by
the int 0 returns nan with a RuntimeWarning; numpy scalar division never
raises ZeroDivisionError.  The model is therefore total and never
returns the error case, mirroring the fact that the except
ZeroDivisionError branch of the source is unreachable. -/
noncomputable def npDiv (a : ℝ) (n : ℕ) : Except ArithErr ℝ := Except.ok (a / n)

/-- Model of the aggregate RNS_ERROR computation in
CalculationService.calculate_error_params: filter the RNS column by
truthiness, then rns_error = sqrt(sum((rns_i - rns)^2) / n) inside a try
block whose except ZeroDivisionError arm would show a warning and abort. -/
noncomputable def rns_error_aggregate (vs : List Value) (rns_mean : ℝ) : Except PipeErr ℝ :=
  match npDiv ((((vs.filter truthy).map toQ).map fun v => ((v : ℝ) - rns_mean) ^ 2).sum)
      ((vs.filter truthy).map toQ).length with
  | Except.error ArithErr.zeroDivisionError => Except.error PipeErr.reportedWarning
  | Except.ok q => Except.ok (Real.sqrt q)

/-- Row colors used by the outlier flagging: WHITE, BLACK and
RNS_ERROR_COLOR from domain.constants. -/
inductive PaintColor
  | white
  | black
  | rnsErrorColor
deriving DecidableEq

/-- One grid row of the data table, restricted to the columns the
calculation service touches, plus the row coloring state set by
color_row. -/
structure SampleRow where
  diameter : Value
  resistance : Value
  rn_sqrt : Value
  rns : Value
  rns_error : Value
  drift : Value
  square : Value
  background : PaintColor
  textColor : PaintColor
deriving DecidableEq

/-- Model of DataTable.color_row: it repaints the background and
foreground brushes of the cells of the row and touches nothing else. -/
def color_row (row : SampleRow) (bg tc : PaintColor) : SampleRow :=
  { row with background := bg, textColor := tc }

/-- Model of DataTable.clear_calculations: it writes the empty string
into the RNS, DRIFT, RN_SQRT and SQUARE cells of every row.  The
RNS_ERROR column is not in the list and keeps its previous content. -/
def clear_calculations_row (row : SampleRow) : SampleRow :=
  { row with rns := Value.blank, drift := Value.blank,
             rn_sqrt := Value.blank, square := Value.blank }

/-- Model of the tolerance comparison in
CalculationService.calculate_error_params: rel = abs(rns_i - rns) / rns *
100 raises ZeroDivisionError exactly when rns = 0, in which case rel is
set to float(inf), which exceeds every allowed value; the result tells
whether rel > allowed. -/
def rel_gt_allowed (rns_i rns_mean allowed : ℚ) : Bool :=
  if rns_mean = 0 then true
  else decide (|rns_i - rns_mean| / rns_mean * 100 > allowed)

/-- Outlier flag state of a row as consumed by the UI recoloring. -/
inductive Tolerance
  | inTol
  | outTol
deriving DecidableEq

/-- Flag decision of one iteration of the coloring loop in
CalculationService.calculate_error_params: a row whose RNS cell is falsy
(blank or 0.0) is skipped entirely — none, it keeps the white repaint
from the top of the iteration; otherwise the row is flagged out of
tolerance exactly when rel_gt_allowed holds. -/
def error_row_flag (rns_value : Value) (rns_mean allowed : ℚ) : Option Tolerance :=
  if truthy rns_value then
    some (if rel_gt_allowed (toQ rns_value) rns_mean allowed
          then Tolerance.outTol else Tolerance.inTol)
  else none

/-- Model of one iteration of the per-row loop in
CalculationService.calculate_error_params: repaint the row white first;
if the RNS cell is falsy, continue (nothing else is written); otherwise
write the absolute deviation into the RNS_ERROR cell and repaint
according to the tolerance comparison. -/
def error_params_row (row : SampleRow) (rns_mean allowed : ℚ) : SampleRow :=
  let r := color_row row PaintColor.white PaintColor.black
  if truthy r.rns then
    let r2 := { r with rns_error := Value.num (calculate_rns_error_per_sample (toQ r.rns) rns_mean) }
    if rel_gt_allowed (toQ r.rns) rns_mean allowed
    then color_row r2 PaintColor.rnsErrorColor PaintColor.white
    else color_row r2 PaintColor.white PaintColor.black
  else r

/-- Row with stale derived values from a previous run, whose resistance
was blanked by the operator before the next run. -/
def staleRow : SampleRow :=
  { diameter := Value.num 10, resistance := Value.blank, rn_sqrt := Value.num 4,
    rns := Value.num 2, rns_error := Value.num 3, drift := Value.num 5,
    square := Value.num 6, background := PaintColor.white, textColor := PaintColor.black }

/-- Helper: mapping a function of the first component over a zip of
equally long lists equals mapping it over the first list. -/
theorem zip_map_fst_eq (x y : List ℝ) (f : ℝ → ℝ) (h : x.length ≤ y.length) :
    ((x.zip y).map fun p => f p.1) = x.map f := by
  have h1 : (x.zip y).map Prod.fst = x := List.map_fst_zip x y h
  calc ((x.zip y).map fun p => f p.1) = ((x.zip y).map Prod.fst).map f := by
        rw [List.map_map]
        rfl
    _ = x.map f := by rw [h1]

/-- Helper: mapping a function of the second component over a zip of
equally long lists equals mapping it over the second list. -/
theorem zip_map_snd_eq (x y : List ℝ) (f : ℝ → ℝ) (h : y.length ≤ x.length) :
    ((x.zip y).map fun p => f p.2) = y.map f := by
  have h1 : (x.zip y).map Prod.snd = y := List.map_snd_zip x y h
  calc ((x.zip y).map fun p => f p.2) = ((x.zip y).map Prod.snd).map f := by
        rw [List.map_map]
        rfl
    _ = y.map f := by rw [h1]

/-- C1: for equal-length lists of at least two points with nonzero sum of
squared deviations in both coordinates, linear_fit returns slope = r *
std_y / std_x, where r is the Pearson correlation sum((x - m_x)(y - m_y))
/ sqrt(sum((x - m_x)^2) * sum((y - m_y)^2)) and std_x, std_y are the
Bessel-corrected (n - 1 denominator) sample standard deviations, and
intercept = mean(ys) - slope * mean(xs). -/
theorem linear_fit_matches_spec_formula (x y : List ℝ)
    (hlen : x.length = y.length) (h2 : 2 ≤ x.length)
    (hx : (x.map fun a => (a - mean x) ^ 2).sum ≠ 0)
    (hy : (y.map fun b => (b - mean y) ^ 2).sum ≠ 0) :
    (linear_fit x y).1 =
      (((x.zip y).map fun p => (p.1 - mean x) * (p.2 - mean y)).sum /
        Real.sqrt ((x.map fun a => (a - mean x) ^ 2).sum *
          (y.map fun b => (b - mean y) ^ 2).sum)) *
      (Real.sqrt ((y.map fun b => (b - mean y) ^ 2).sum / ((y.length : ℝ) - 1)) /
        Real.sqrt ((x.map fun a => (a - mean x) ^ 2).sum / ((x.length : ℝ) - 1))) ∧
    (linear_fit x y).2 = mean y - (linear_fit x y).1 * mean x := by
  constructor
  · show pearson_r x y (mean x) (mean y) * (std y (mean y) / std x (mean x)) = _
    rw [pearson_r, std, std,
      zip_map_fst_eq x y (fun a => (a - mean x) ^ 2) hlen.le,
      zip_map_snd_eq x y (fun b => (b - mean y) ^ 2) hlen.ge]
  · rfl

/-- Witness for C1 at the collinear data x = y = [0, 2]. -/
theorem linear_fit_matches_spec_formula_witness :
    [(0:ℝ), 2].length = [(0:ℝ), 2].length ∧ 2 ≤ [(0:ℝ), 2].length ∧
    ([(0:ℝ), 2].map fun a => (a - mean [(0:ℝ), 2]) ^ 2).sum ≠ 0 ∧
    ((linear_fit [(0:ℝ), 2] [(0:ℝ), 2]).1 =
      ((([(0:ℝ), 2].zip [(0:ℝ), 2]).map fun p =>
          (p.1 - mean [(0:ℝ), 2]) * (p.2 - mean [(0:ℝ), 2])).sum /
        Real.sqrt (([(0:ℝ), 2].map fun a => (a - mean [(0:ℝ), 2]) ^ 2).sum *
          ([(0:ℝ), 2].map fun b => (b - mean [(0:ℝ), 2]) ^ 2).sum)) *
      (Real.sqrt (([(0:ℝ), 2].map fun b => (b - mean [(0:ℝ), 2]) ^ 2).sum /
          (([(0:ℝ), 2].length : ℝ) - 1)) /
        Real.sqrt (([(0:ℝ), 2].map fun a => (a - mean [(0:ℝ), 2]) ^ 2).sum /
          (([(0:ℝ), 2].length : ℝ) - 1))) ∧
      (linear_fit [(0:ℝ), 2] [(0:ℝ), 2]).2 =
        mean [(0:ℝ), 2] - (linear_fit [(0:ℝ), 2] [(0:ℝ), 2]).1 * mean [(0:ℝ), 2]) := by
  have hvar : ([(0:ℝ), 2].map fun a => (a - mean [(0:ℝ), 2]) ^ 2).sum ≠ 0 := by
    simp [mean]
    norm_num
  exact ⟨rfl, by norm_num, hvar,
    linear_fit_matches_spec_formula [(0:ℝ), 2] [(0:ℝ), 2] rfl (by norm_num) hvar hvar⟩

/-- C9: under the same preconditions as C1, the fitted line passes
through the centroid of the data: slope * mean(xs) + intercept =
mean(ys). -/
theorem linear_fit_centroid (x y : List ℝ)
    (hlen : x.length = y.length) (h2 : 2 ≤ x.length)
    (hx : (x.map fun a => (a - mean x) ^ 2).sum ≠ 0)
    (hy : (y.map fun b => (b - mean y) ^ 2).sum ≠ 0) :
    (linear_fit x y).1 * mean x + (linear_fit x y).2 = mean y := by
  simp only [linear_fit]
  ring

/-- Witness for C9 at the data x = y = [0, 2]. -/
theorem linear_fit_centroid_witness :
    2 ≤ [(0:ℝ), 2].length ∧
    ([(0:ℝ), 2].map fun a => (a - mean [(0:ℝ), 2]) ^ 2).sum ≠ 0 ∧
    (linear_fit [(0:ℝ), 2] [(0:ℝ), 2]).1 * mean [(0:ℝ), 2] +
      (linear_fit [(0:ℝ), 2] [(0:ℝ), 2]).2 = mean [(0:ℝ), 2] := by
  have hvar : ([(0:ℝ), 2].map fun a => (a - mean [(0:ℝ), 2]) ^ 2).sum ≠ 0 := by
    simp [mean]
    norm_num
  exact ⟨by norm_num, hvar,
    linear_fit_centroid [(0:ℝ), 2] [(0:ℝ), 2] rfl (by norm_num) hvar hvar⟩

/-- C10: the per-sample RnS factors through the per-sample area,
calculate_rns_per_sample r d drift rn = (r + rn) * calculate_square d
drift, and calculate_square d drift = pi / 4 * (d - drift)^2 is always
nonnegative. -/
theorem rns_per_sample_factors_through_square
    (resistance diameter drift rn_persistent : ℝ) :
    calculate_rns_per_sample resistance diameter drift rn_persistent =
      (resistance + rn_persistent) * calculate_square diameter drift ∧
    calculate_square diameter drift = Real.pi / 4 * (diameter - drift) ^ 2 ∧
    0 ≤ calculate_square diameter drift := by
  refine ⟨?_, ?_, ?_⟩
  · simp only [calculate_rns_per_sample, calculate_square]
    ring
  · simp only [calculate_square]
    ring
  · simp only [calculate_square]
    positivity

/-- C2 (code bug): on a degenerate input with zero variance in the x
data, calculate_main_params does not report an error: the zero Pearson
denominator is divided through (NaN under IEEE, with only a numpy
RuntimeWarning) and the ok branch is taken, writing the resulting slope,
intercept, drift and rns values into the parameter table. -/
theorem degenerate_fit_silently_succeeds :
    (([(1:ℝ), 1].map fun a => (a - mean [(1:ℝ), 1]) ^ 2).sum = 0) ∧
    ∃ p, calculate_main_params [Value.num 1, Value.num 1] [Value.num 1, Value.num 2] =
      Except.ok p := by
  constructor
  · simp [mean]
  · exact ⟨_, rfl⟩

/-- C4 (code bug): for a row with resistance = -5 and rn_consistent = 0
the sqrt domain precondition fails, yet calculate_rn05 still produces a
value for the row (NaN under IEEE) and writes it into the RN_SQRT cell
instead of leaving the row blank. -/
theorem rn_sqrt_domain_violation_written :
    ((toQ (Value.num (-5)) : ℝ) + ((0 : ℚ) : ℝ) ≤ 0) ∧
    (calculate_rn05_row (Value.num (-5)) (Value.num 10) 0).isSome = true := by
  constructor
  · norm_num [toQ]
  · rfl

/-- C3 (counterexample): at xs = [0.0, blank], ys = [1.0, 5.0] the blank
makes numpy coerce the whole array to a string dtype, so the 0.0 becomes
a non-empty, truthy string and its pair is kept: the code returns the
arrays [0.0] and [1.0], while the claim says 0/0.0 is treated as missing
and the pair is dropped. -/
theorem drop_nans_zero_kept_counterexample :
    [Value.num 0, Value.blank].length = [Value.num 1, Value.num 5].length ∧
    truthy (Value.num 0) = false ∧
    drop_nans [Value.num 0, Value.blank] [Value.num 1, Value.num 5] =
      Except.ok [[0], [1]] :=
  ⟨rfl, rfl, rfl⟩

/-- C3 (amended): drop_nans raises ListsNotSameLength exactly on a
length mismatch; on equal-length inputs a pair is dropped according to
the dtype numpy chose for np.array([arr1, arr2]) — when a blank occurs
anywhere in either list all values are strings and a pair is kept
exactly when both entries are non-blank (a 0.0 is kept), and with no
blank at all a pair is kept exactly when both values are nonzero.  With
at least one surviving pair it returns two equal-length float arrays
holding exactly the kept pairs in original order, of length at most
len(xs); with zero surviving pairs the result is the empty row list. -/
theorem drop_nans_characterization (a b : List Value) :
    (a.length ≠ b.length → drop_nans a b = Except.error PyErr.listsNotSameLength) ∧
    (a.length = b.length →
      ((a.zip b).filter fun p =>
        keep (hasBlank a || hasBlank b) p.1 &&
        keep (hasBlank a || hasBlank b) p.2).length ≤ a.length ∧
      (((a.zip b).filter fun p =>
          keep (hasBlank a || hasBlank b) p.1 &&
          keep (hasBlank a || hasBlank b) p.2) ≠ [] →
        drop_nans a b = Except.ok
          [((a.zip b).filter fun p =>
              keep (hasBlank a || hasBlank b) p.1 &&
              keep (hasBlank a || hasBlank b) p.2).map fun p => toQ p.1,
           ((a.zip b).filter fun p =>
              keep (hasBlank a || hasBlank b) p.1 &&
              keep (hasBlank a || hasBlank b) p.2).map fun p => toQ p.2] ∧
        (((a.zip b).filter fun p =>
            keep (hasBlank a || hasBlank b) p.1 &&
            keep (hasBlank a || hasBlank b) p.2).map fun p => toQ p.1).length =
          (((a.zip b).filter fun p =>
              keep (hasBlank a || hasBlank b) p.1 &&
              keep (hasBlank a || hasBlank b) p.2).map fun p => toQ p.2).length) ∧
      (((a.zip b).filter fun p =>
          keep (hasBlank a || hasBlank b) p.1 &&
          keep (hasBlank a || hasBlank b) p.2) = [] →
        drop_nans a b = Except.ok [])) := by
  constructor
  · intro h
    simp [drop_nans, h]
  · intro h
    refine ⟨?_, ?_, ?_⟩
    · calc ((a.zip b).filter fun p =>
            keep (hasBlank a || hasBlank b) p.1 &&
            keep (hasBlank a || hasBlank b) p.2).length
          ≤ (a.zip b).length := List.length_filter_le _ _
        _ ≤ a.length := by
            rw [List.length_zip]
            exact Nat.min_le_left _ _
    · intro hne
      constructor
      · simp [drop_nans, h, hne]
      · simp
    · intro he
      simp [drop_nans, h, he]

/-- Witness for C3 at inputs of equal length two with one surviving
pair. -/
theorem drop_nans_characterization_witness :
    [Value.num 2, Value.blank].length = [Value.num 3, Value.num 1].length ∧
    drop_nans [Value.num 2, Value.blank] [Value.num 3, Value.num 1] =
      Except.ok [[2], [3]] := by
  have h := (((drop_nans_characterization [Value.num 2, Value.blank]
      [Value.num 3, Value.num 1]).2 rfl).2.1 (by decide)).1
  exact ⟨rfl, h.trans (by rfl)⟩

/-- C5 (counterexample): a row whose computed rns_i equals 0 is not
blank, and its relative deviation from rns_mean = 1 is 100 percent,
above the allowed 5 percent; the claim demands the out-of-tolerance
flag, but the coloring loop skips the row because 0.0 is falsy, leaving
it marked in tolerance. -/
theorem outlier_flag_zero_value_counterexample :
    Value.num 0 ≠ Value.blank ∧
    |toQ (Value.num 0) - 1| / 1 * 100 > 5 ∧
    error_row_flag (Value.num 0) 1 5 = none := by
  refine ⟨by simp, by norm_num [toQ], rfl⟩

/-- C5 (amended): for every sample row whose computed rns_i is truthy
(non-blank and nonzero), the flag is out-of-tolerance exactly when
rns_mean = 0 (infinite relative deviation) or the relative deviation
|rns_i - rns_mean| / rns_mean * 100 exceeds allowed_error_percent, and
in-tolerance otherwise; the flagging repaint mutates no cell value of
the row. -/
theorem outlier_flag_spec (v : Value) (rns_mean allowed : ℚ)
    (hv : truthy v = true) :
    (error_row_flag v rns_mean allowed = some Tolerance.outTol ↔
      (rns_mean = 0 ∨ |toQ v - rns_mean| / rns_mean * 100 > allowed)) ∧
    (error_row_flag v rns_mean allowed = some Tolerance.inTol ↔
      ¬(rns_mean = 0 ∨ |toQ v - rns_mean| / rns_mean * 100 > allowed)) ∧
    (∀ row : SampleRow, ∀ bg tc : PaintColor,
      (color_row row bg tc).diameter = row.diameter ∧
      (color_row row bg tc).resistance = row.resistance ∧
      (color_row row bg tc).rn_sqrt = row.rn_sqrt ∧
      (color_row row bg tc).rns = row.rns ∧
      (color_row row bg tc).rns_error = row.rns_error ∧
      (color_row row bg tc).drift = row.drift ∧
      (color_row row bg tc).square = row.square) := by
  refine ⟨?_, ?_, fun row bg tc => ⟨rfl, rfl, rfl, rfl, rfl, rfl, rfl⟩⟩
  · rw [error_row_flag, if_pos hv]
    by_cases h0 : rns_mean = 0
    · simp [rel_gt_allowed, h0]
    · by_cases hrel : |toQ v - rns_mean| / rns_mean * 100 > allowed
      · simp [rel_gt_allowed, h0, hrel]
      · simp [rel_gt_allowed, h0, hrel]
  · rw [error_row_flag, if_pos hv]
    by_cases h0 : rns_mean = 0
    · simp [rel_gt_allowed, h0]
    · by_cases hrel : |toQ v - rns_mean| / rns_mean * 100 > allowed
      · simp [rel_gt_allowed, h0, hrel]
      · simp [rel_gt_allowed, h0, hrel]

/-- Witness for C5 at rns_i = 2, rns_mean = 1, allowed = 5. -/
theorem outlier_flag_spec_witness :
    truthy (Value.num 2) = true ∧
    (error_row_flag (Value.num 2) 1 5 = some Tolerance.outTol ↔
      ((1 : ℚ) = 0 ∨ |toQ (Value.num 2) - 1| / 1 * 100 > 5)) :=
  ⟨rfl, (outlier_flag_spec (Value.num 2) 1 5 rfl).1⟩

/-- C6 (code bug): when zero samples have a truthy rns_i, the aggregate
RNS_ERROR computation divides np.float64 by the int 0, which yields NaN
with a RuntimeWarning instead of raising ZeroDivisionError, so the
except arm that would report the error is unreachable and the ok branch
writes the result into the parameter table. -/
theorem rns_error_aggregate_empty_not_reported :
    ([Value.blank, Value.num 0].filter truthy).length = 0 ∧
    ∃ v, rns_error_aggregate [Value.blank, Value.num 0] 1 = Except.ok v :=
  ⟨rfl, ⟨_, rfl⟩⟩

/-- C7 (code bug): clear_calculations blanks the RNS, DRIFT, RN_SQRT and
SQUARE cells of a row but leaves the RNS_ERROR cell untouched, and a
subsequent error-params pass skips the row because its rns is blank, so
the stale rns_error value 3 from the previous run survives a full
clear-and-recompute cycle. -/
theorem clear_calculations_misses_rns_error :
    (clear_calculations_row staleRow).rns = Value.blank ∧
    (clear_calculations_row staleRow).drift = Value.blank ∧
    (clear_calculations_row staleRow).rn_sqrt = Value.blank ∧
    (clear_calculations_row staleRow).square = Value.blank ∧
    (clear_calculations_row staleRow).rns_error = Value.num 3 ∧
    Value.num 3 ≠ Value.blank ∧
    (error_params_row (clear_calculations_row staleRow) 1 5).rns_error = Value.num 3 :=
  ⟨rfl, rfl, rfl, rfl, rfl, by simp, rfl⟩

/-- C8 (counterexample): with zero surviving pairs drop_nans returns the
single empty array, not two empty arrays, and unpacking that result into
two variables raises ValueError. -/
theorem drop_nans_empty_unpack_value_error :
    drop_nans [Value.blank] [Value.num 1] = Except.ok [] ∧
    unpack2 [] = Except.error PyErr.valueError :=
  ⟨rfl, rfl⟩

/-- C8 (amended): whenever zero pairs survive the filtering, the caller
calculate_main_params catches the ValueError raised by unpacking the
empty drop_nans result and aborts the pipeline with a reported warning
instead of crashing. -/
theorem main_params_zero_survivors_reported (diam rn : List Value)
    (hlen : diam.length = rn.length)
    (hkept : ((diam.zip rn).filter fun p =>
        keep (hasBlank diam || hasBlank rn) p.1 &&
        keep (hasBlank diam || hasBlank rn) p.2) = []) :
    calculate_main_params diam rn = Except.error PipeErr.reportedWarning := by
  have h : drop_nans diam rn = Except.ok [] := by
    simp [drop_nans, hlen, hkept]
  unfold calculate_main_params
  rw [h]
  rfl

/-- Witness for C8 at two all-float rows whose diameters are both 0.0,
so that under the float dtype both pairs fail the truthiness filter. -/
theorem main_params_zero_survivors_reported_witness :
    [Value.num 0, Value.num 0].length = [Value.num 1, Value.num 5].length ∧
    calculate_main_params [Value.num 0, Value.num 0] [Value.num 1, Value.num 5] =
      Except.error PipeErr.reportedWarning :=
  ⟨rfl, main_params_zero_survivors_reported _ _ rfl (by decide)⟩

end RnSApp
